import Mathlib

/-!
Verification of the `null-safe` library (`src/null-safety.ts`).

The TypeScript class `NullSafety<TSource>` wraps a value of type
`TSource | null | undefined` and offers chained, null/undefined-safe
derivation (`next`, `nextWithAny`) and terminal extraction
(`result`, `resultAlty`).

Embedding choices:
- A runtime value of type `T | null | undefined` is `Opt T` below, with
  constructors `val`, `null` (the `null` marker) and `undef` (the
  `undefined` marker).
- The class is the structure `NullSafety T` with its single field `source`.
- Getter functions may have side effects in JavaScript; to reason about
  how many times a getter is invoked, `nextInstr` and `nextWithAnyInstr`
  are the same method bodies with the getter given explicit state
  threading (the getter is evaluated exactly where the source evaluates
  it, so the final state witnesses the invocations).
- To reason about mutation of the receiver, `nextMethod`,
  `nextWithAnyMethod`, `resultMethod` and `resultAltyMethod` render each
  method as a function from the receiver's field (`this.source`) to the
  pair (return value, field after the call); none of the method bodies
  assigns `this.source`, so the post-state is the pre-state.
-/

/-- A JavaScript runtime value of static type `T | null | undefined`:
either a present value of type `T`, the `null` marker, or the
`undefined` marker. -/
inductive Opt (T : Type) where
  | val : T → Opt T
  | null : Opt T
  | undef : Opt T
  deriving DecidableEq, Repr

namespace Opt

/-- The runtime test `x === null`. -/
def isNull {T : Type} : Opt T → Bool
  | .null => true
  | _ => false

/-- The runtime test `x === undefined`. -/
def isUndef {T : Type} : Opt T → Bool
  | .undef => true
  | _ => false

/-- The test `x === undefined || x === null` used throughout the source. -/
def isAbsent {T : Type} (x : Opt T) : Bool :=
  x.isUndef || x.isNull

end Opt

/-- The type alias `Getter<TSource, TResult> = (source: TSource) => TResult`
from `null-safety.ts`. -/
abbrev Getter (TSource TResult : Type) := TSource → TResult

/-- The class `NullSafety<TSource>`, whose only field is
`private source: TSource | null | undefined`. -/
structure NullSafety (TSource : Type) where
  source : Opt TSource
  deriving DecidableEq, Repr

namespace NullSafety

/-- `NullSafety.start(source)`: wraps `source` in a new instance
(it just calls the constructor). -/
def start {T : Type} (source : Opt T) : NullSafety T :=
  ⟨source⟩

/-- The first step of `next`'s body:
`this.source === undefined || this.source === null ? this.source : getter(this.source)`.
When the held value is a marker, the marker itself is carried forward
(typed here by re-injecting the same marker at the result type). -/
def chainResult {T R : Type} (src : Opt T) (getter : Getter T (Opt R)) : Opt R :=
  match src with
  | Opt.undef => Opt.undef
  | Opt.null => Opt.null
  | Opt.val v => getter v

/-- `next(getter, altResult?)`: compute the next value (short-circuiting on
an absent source), then, if the next value is absent and `altResult` was
supplied (`altResult !== undefined`), use `altResult` instead; wrap the
outcome in a new `NullSafety`. An omitted optional argument is `undefined`,
so `altResult = Opt.undef` renders the call without a fallback. -/
def next {T R : Type} (c : NullSafety T) (getter : Getter T (Opt R))
    (altResult : Opt R) : NullSafety R :=
  let result : Opt R := chainResult c.source getter
  let result : Opt R :=
    if result.isAbsent && !altResult.isUndef then altResult else result
  ⟨result⟩

/-- `next` with the getter's evaluation made observable: the getter threads
a state `S`, and is evaluated exactly where the source evaluates it (only
in the non-absent branch of the conditional). -/
def nextInstr {T R S : Type} (c : NullSafety T)
    (getter : S → T → Opt R × S) (altResult : Opt R) (s : S) :
    NullSafety R × S :=
  let rs : Opt R × S :=
    match c.source with
    | Opt.undef => (Opt.undef, s)
    | Opt.null => (Opt.null, s)
    | Opt.val v => getter s v
  let result : Opt R :=
    if rs.1.isAbsent && !altResult.isUndef then altResult else rs.1
  (⟨result⟩, rs.2)

/-- `nextWithAny(getter, altResult?)`: always apply `getter` to the held
value (marker or not), then apply the same fallback rule as `next`. -/
def nextWithAny {T R : Type} (c : NullSafety T)
    (getter : Getter (Opt T) (Opt R)) (altResult : Opt R) : NullSafety R :=
  let result : Opt R := getter c.source
  let result : Opt R :=
    if result.isAbsent && !altResult.isUndef then altResult else result
  ⟨result⟩

/-- `nextWithAny` with the getter's evaluation made observable via state
threading; the getter is evaluated unconditionally, as in the source. -/
def nextWithAnyInstr {T R S : Type} (c : NullSafety T)
    (getter : S → Opt T → Opt R × S) (altResult : Opt R) (s : S) :
    NullSafety R × S :=
  let rs : Opt R × S := getter s c.source
  let result : Opt R :=
    if rs.1.isAbsent && !altResult.isUndef then altResult else rs.1
  (⟨result⟩, rs.2)

/-- `result()`: returns the held value unchanged. -/
def result {T : Type} (c : NullSafety T) : Opt T :=
  c.source

/-- `resultAlty(altResult)`: returns the held value when it is neither
`null` nor `undefined`, otherwise returns `altResult`. -/
def resultAlty {T : Type} (c : NullSafety T) (altResult : T) : T :=
  match c.source with
  | Opt.val v => v
  | Opt.null => altResult
  | Opt.undef => altResult

/-- `next` as a method acting on the receiver's field: input is
`this.source` before the call, output is the returned instance paired with
`this.source` after the call. The body of `next` contains no assignment to
`this.source`, so the field is unchanged. -/
def nextMethod {T R : Type} (src : Opt T) (getter : Getter T (Opt R))
    (altResult : Opt R) : NullSafety R × Opt T :=
  (next ⟨src⟩ getter altResult, src)

/-- `nextWithAny` as a method acting on the receiver's field; its body
contains no assignment to `this.source`. -/
def nextWithAnyMethod {T R : Type} (src : Opt T)
    (getter : Getter (Opt T) (Opt R)) (altResult : Opt R) :
    NullSafety R × Opt T :=
  (nextWithAny ⟨src⟩ getter altResult, src)

/-- `result` as a method acting on the receiver's field; its body contains
no assignment to `this.source`. -/
def resultMethod {T : Type} (src : Opt T) : Opt T × Opt T :=
  (result ⟨src⟩, src)

/-- `resultAlty` as a method acting on the receiver's field; its body
contains no assignment to `this.source`. -/
def resultAltyMethod {T : Type} (src : Opt T) (altResult : T) :
    T × Opt T :=
  (resultAlty ⟨src⟩ altResult, src)

/-- Call `result()` repeatedly on the same instance, threading the
receiver's field through each call, and return the last call's output. -/
def extractSeq {T : Type} (src : Opt T) : Nat → Opt T
  | 0 => (resultMethod src).1
  | n + 1 => extractSeq (resultMethod src).2 n

end NullSafety

/-- The object `{a: null}` of the concrete scenario: a record whose field
`a` has a nullable type and holds `null`. -/
structure ObjA where
  a : Opt String
  deriving DecidableEq, Repr

namespace NullSafety

/-- C1: on an absent container (either marker), `next` with no fallback
never evaluates the getter (the threaded state is returned unchanged) and
the new instance holds the same absence marker that was held before. -/
theorem next_absent_short_circuit {T R S : Type} (c : NullSafety T)
    (getter : S → T → Opt R × S) (s : S) :
    (c.source = Opt.null →
      nextInstr c getter Opt.undef s = (⟨Opt.null⟩, s))
    ∧ (c.source = Opt.undef →
      nextInstr c getter Opt.undef s = (⟨Opt.undef⟩, s)) := by
  constructor <;> intro h <;>
    simp [nextInstr, h, Opt.isAbsent, Opt.isUndef, Opt.isNull]

/-- Witness for C1 at concrete inputs, one for each absence marker. -/
theorem next_absent_short_circuit_witness :
    nextInstr (⟨Opt.null⟩ : NullSafety Nat)
        (fun (k : Nat) (v : Nat) => (Opt.val (v + 1), k + 1)) Opt.undef 0
      = (⟨Opt.null⟩, 0)
    ∧ nextInstr (⟨Opt.undef⟩ : NullSafety Nat)
        (fun (k : Nat) (v : Nat) => (Opt.val (v + 1), k + 1)) Opt.undef 0
      = (⟨Opt.undef⟩, 0) :=
  ⟨(next_absent_short_circuit ⟨Opt.null⟩ _ 0).1 rfl,
   (next_absent_short_circuit ⟨Opt.undef⟩ _ 0).2 rfl⟩

/-- C2: on a container holding a present value `v`, `next` holds
`getter v` when that result is present (whatever the fallback), and holds
the fallback when `getter v` is absent and a fallback was supplied
(`altResult !== undefined`). -/
theorem next_present_step {T R : Type} (c : NullSafety T) (v : T)
    (getter : Getter T (Opt R)) (altResult : Opt R)
    (h : c.source = Opt.val v) :
    (Opt.isAbsent (getter v) = false →
      (next c getter altResult).result = getter v)
    ∧ (Opt.isAbsent (getter v) = true → altResult.isUndef = false →
      (next c getter altResult).result = altResult) := by
  constructor <;> intro h1 <;>
    simp [next, result, chainResult, h, h1]
  intro h2
  simp [h2]

/-- Witness for C2: a present → present step ignoring a supplied fallback,
and a present → absent step substituting the supplied fallback. -/
theorem next_present_step_witness :
    (next (⟨Opt.val 1⟩ : NullSafety Nat) (fun n => Opt.val (n + 1))
      (Opt.val 9)).result = Opt.val 2
    ∧ (next (⟨Opt.val 1⟩ : NullSafety Nat) (fun _ => (Opt.null : Opt Nat))
      (Opt.val 9)).result = Opt.val 9 :=
  ⟨(next_present_step ⟨Opt.val 1⟩ 1 (fun n => Opt.val (n + 1)) (Opt.val 9)
      rfl).1 (by decide),
   (next_present_step ⟨Opt.val 1⟩ 1 (fun _ => (Opt.null : Opt Nat))
      (Opt.val 9) rfl).2 (by decide) (by decide)⟩

/-- C3: `nextWithAny` invokes its getter exactly once (a threaded counter
increments by one regardless of presence), passes the held value or marker
as-is, and holds the getter's result, except that when that result is
absent and a fallback was supplied the fallback is substituted. -/
theorem nextWithAny_always_invokes {T R : Type} (c : NullSafety T)
    (getter : Getter (Opt T) (Opt R)) (altResult : Opt R) (n : Nat) :
    (nextWithAnyInstr c (fun k x => (getter x, k + 1)) altResult n).2 = n + 1
    ∧ (nextWithAnyInstr c (fun k x => (getter x, k + 1)) altResult n).1
      = nextWithAny c getter altResult
    ∧ (Opt.isAbsent (getter c.source) = false →
      (nextWithAny c getter altResult).result = getter c.source)
    ∧ (Opt.isAbsent (getter c.source) = true → altResult.isUndef = true →
      (nextWithAny c getter altResult).result = getter c.source)
    ∧ (Opt.isAbsent (getter c.source) = true → altResult.isUndef = false →
      (nextWithAny c getter altResult).result = altResult) := by
  refine ⟨rfl, rfl, ?_, ?_, ?_⟩ <;> intro h1 <;>
    simp [nextWithAny, result, h1]
  · intro h2
    simp [h2]
  · intro h2
    simp [h2]

/-- Witness for C3 on an absent container with no fallback: the counter
still increments and the getter's result is kept. -/
theorem nextWithAny_always_invokes_witness :
    (nextWithAnyInstr (⟨Opt.null⟩ : NullSafety Nat)
      (fun k x => ((if x.isAbsent then Opt.val 0 else x), k + 1))
      (Opt.undef : Opt Nat) 5).2 = 6
    ∧ (nextWithAny (⟨Opt.null⟩ : NullSafety Nat)
      (fun x => (if x.isAbsent then Opt.val 0 else x))
      (Opt.undef : Opt Nat)).result = Opt.val 0 :=
  ⟨(nextWithAny_always_invokes ⟨Opt.null⟩
      (fun x => (if x.isAbsent then Opt.val 0 else x)) Opt.undef 5).1,
   (nextWithAny_always_invokes ⟨Opt.null⟩
      (fun x => (if x.isAbsent then Opt.val 0 else x))
      Opt.undef 5).2.2.1 (by decide)⟩

/-- C4: `resultAlty` returns the held value when present and the mandatory
fallback when the held value is either absence marker. -/
theorem resultAlty_fallback {T : Type} (c : NullSafety T) (altResult : T) :
    (∀ v : T, c.source = Opt.val v → resultAlty c altResult = v)
    ∧ (Opt.isAbsent c.source = true → resultAlty c altResult = altResult) := by
  constructor
  · intro v h
    simp [resultAlty, h]
  · intro h
    cases hs : c.source with
    | val v => rw [hs] at h; simp [Opt.isAbsent, Opt.isUndef, Opt.isNull] at h
    | null => simp [resultAlty, hs]
    | undef => simp [resultAlty, hs]

/-- Witness for C4 with a present container and a `null` container. -/
theorem resultAlty_fallback_witness :
    resultAlty (⟨Opt.val 3⟩ : NullSafety Nat) 7 = 3
    ∧ resultAlty (⟨Opt.null⟩ : NullSafety Nat) 7 = 7 :=
  ⟨(resultAlty_fallback ⟨Opt.val 3⟩ 7).1 3 rfl,
   (resultAlty_fallback ⟨Opt.null⟩ 7).2 (by decide)⟩

/-- C5: `resultAlty` never yields an absence marker: its result, viewed as
a runtime value, is always present, and it is always either the held
present value or the fallback. -/
theorem resultAlty_never_absent {T : Type} (c : NullSafety T)
    (altResult : T) :
    Opt.isAbsent (Opt.val (resultAlty c altResult)) = false
    ∧ ((∃ v : T, c.source = Opt.val v ∧ resultAlty c altResult = v)
      ∨ resultAlty c altResult = altResult) := by
  refine ⟨rfl, ?_⟩
  cases hs : c.source with
  | val v => exact Or.inl ⟨v, rfl, by simp [resultAlty, hs]⟩
  | null => exact Or.inr (by simp [resultAlty, hs])
  | undef => exact Or.inr (by simp [resultAlty, hs])

/-- C6: `start` stores exactly its argument and `result` reads it back:
the round trip holds for present values and for both absence markers. -/
theorem start_result_roundtrip {T : Type} (v : T) :
    (start (Opt.val v)).result = Opt.val v
    ∧ (start (Opt.null : Opt T)).result = Opt.null
    ∧ (start (Opt.undef : Opt T)).result = Opt.undef :=
  ⟨rfl, rfl, rfl⟩

/-- C7: the concrete scenario
`start({a: null}).next(o => o.a).next(o => o.missingField, 'fallback').result()`
yields `'fallback'`, and the second step never evaluates its getter (a
threaded counter is unchanged): the fallback applies to the carried-forward
absence. Accessing a missing field in JavaScript yields `undefined`, so the
second getter is `fun _ => Opt.undef`. -/
theorem chain_fallback_scenario :
    (next (next (start (Opt.val (⟨Opt.null⟩ : ObjA))) (fun o => o.a)
        Opt.undef)
      (fun _ => (Opt.undef : Opt String)) (Opt.val "fallback")).result
    = Opt.val "fallback"
    ∧ (nextInstr (next (start (Opt.val (⟨Opt.null⟩ : ObjA))) (fun o => o.a)
        Opt.undef)
      (fun (k : Nat) (_ : String) => ((Opt.undef : Opt String), k + 1))
      (Opt.val "fallback") 0).2 = 0 :=
  ⟨rfl, rfl⟩

/-- C8: no method mutates the receiver: rendered on the receiver's field,
`next`, `nextWithAny`, `result` and `resultAlty` all leave `this.source`
unchanged, and calling `result()` any number of times returns the
identical value. -/
theorem no_mutation {T R : Type} (c : NullSafety T)
    (getter : Getter T (Opt R)) (getterAny : Getter (Opt T) (Opt R))
    (altResult : Opt R) (altT : T) :
    (nextMethod c.source getter altResult).2 = c.source
    ∧ (nextWithAnyMethod c.source getterAny altResult).2 = c.source
    ∧ (resultMethod c.source).2 = c.source
    ∧ (resultAltyMethod c.source altT).2 = c.source
    ∧ ∀ n m : Nat, extractSeq c.source n = extractSeq c.source m := by
  refine ⟨rfl, rfl, rfl, rfl, ?_⟩
  have key : ∀ k : Nat, extractSeq c.source k = c.source := by
    intro k
    induction k with
    | zero => rfl
    | succ k ih => exact ih
  intro n m
  rw [key, key]

/-- C9: the fallback counts as supplied exactly when it is not
`undefined`: with fallback `undefined` (which is also how an omitted
argument arrives) the raw chained result is kept unchanged, so `undefined`
is never substituted; a fallback of `null` is substituted as-is when the
raw result is absent, so a step with a fallback can still produce an
absent value. Both `next` and `nextWithAny` behave this way. -/
theorem fallback_undefined_vs_null {T R : Type} (c : NullSafety T)
    (getter : Getter T (Opt R)) (getterAny : Getter (Opt T) (Opt R)) :
    (next c getter Opt.undef).result = chainResult c.source getter
    ∧ (Opt.isAbsent (chainResult c.source getter) = true →
      (next c getter Opt.null).result = Opt.null
      ∧ Opt.isAbsent ((next c getter Opt.null).result) = true)
    ∧ (nextWithAny c getterAny Opt.undef).result = getterAny c.source
    ∧ (Opt.isAbsent (getterAny c.source) = true →
      (nextWithAny c getterAny Opt.null).result = Opt.null
      ∧ Opt.isAbsent ((nextWithAny c getterAny Opt.null).result) = true) := by
  refine ⟨?_, ?_, ?_, ?_⟩
  · simp [next, result, Opt.isUndef]
  · intro h
    cases hr : chainResult c.source getter with
    | val v => rw [hr] at h; simp [Opt.isAbsent, Opt.isUndef, Opt.isNull] at h
    | null =>
      constructor <;> simp [next, result, hr, Opt.isAbsent, Opt.isUndef, Opt.isNull]
    | undef =>
      constructor <;> simp [next, result, hr, Opt.isAbsent, Opt.isUndef, Opt.isNull]
  · simp [nextWithAny, result, Opt.isUndef]
  · intro h
    cases hg : getterAny c.source with
    | val v => rw [hg] at h; simp [Opt.isAbsent, Opt.isUndef, Opt.isNull] at h
    | null =>
      constructor <;>
        simp [nextWithAny, result, hg, Opt.isAbsent, Opt.isUndef, Opt.isNull]
    | undef =>
      constructor <;>
        simp [nextWithAny, result, hg, Opt.isAbsent, Opt.isUndef, Opt.isNull]

/-- Witness for C9: an absent chained result is kept under an `undefined`
fallback and replaced by a `null` fallback. -/
theorem fallback_undefined_vs_null_witness :
    (next (⟨Opt.val 1⟩ : NullSafety Nat) (fun _ => (Opt.undef : Opt Nat))
      Opt.undef).result = Opt.undef
    ∧ (next (⟨Opt.val 1⟩ : NullSafety Nat) (fun _ => (Opt.undef : Opt Nat))
      Opt.null).result = Opt.null :=
  ⟨(fallback_undefined_vs_null (⟨Opt.val 1⟩ : NullSafety Nat)
      (fun _ => (Opt.undef : Opt Nat)) (fun x => x)).1,
   ((fallback_undefined_vs_null (⟨Opt.val 1⟩ : NullSafety Nat)
      (fun _ => (Opt.undef : Opt Nat)) (fun x => x)).2.1 (by decide)).1⟩

/-- C10: on a container holding a present value, `next` and `nextWithAny`
given the same runtime getter and the same fallback build equal instances;
the getter is applied to the same present value in both. -/
theorem next_agrees_with_nextWithAny_on_present {T R : Type}
    (c : NullSafety T) (v : T) (getter : Getter (Opt T) (Opt R))
    (altResult : Opt R) (h : c.source = Opt.val v) :
    next c (fun x => getter (Opt.val x)) altResult
      = nextWithAny c getter altResult := by
  simp [next, nextWithAny, chainResult, h]

/-- Witness for C10 at a concrete present container. -/
theorem next_agrees_with_nextWithAny_on_present_witness :
    next (⟨Opt.val 4⟩ : NullSafety Nat)
      (fun x => (Opt.val (x + 1) : Opt Nat)) Opt.undef
    = nextWithAny (⟨Opt.val 4⟩ : NullSafety Nat)
      (fun x => match x with
        | Opt.val y => Opt.val (y + 1)
        | Opt.null => Opt.null
        | Opt.undef => Opt.undef) Opt.undef :=
  next_agrees_with_nextWithAny_on_present ⟨Opt.val 4⟩ 4
    (fun x => match x with
      | Opt.val y => Opt.val (y + 1)
      | Opt.null => Opt.null
      | Opt.undef => Opt.undef) Opt.undef rfl

end NullSafety
